import Mathlib

/-!
Shallow embedding of the hamster macOS port core:
`src/hamster/lib/configuration_macos.py` (MacOSConfigStore) and
`src/hamster/client/client_native.py` (Storage facade).

Python dictionaries are modelled as association lists with dict-update
semantics; Python `None` for optional fields is `Option.none`; exceptions
are `Except`.  Times are abstract instants (`Nat`) except for the
time-of-day constructor, where the hour/minute range check matters.
-/

namespace Hamster

/-- Settings values: the settings file stores integers or strings
(spec section 6: "values are integers or strings"). -/
inductive Value where
  | VInt (i : Int)
  | VStr (s : String)
deriving DecidableEq, Repr

/-- Association-list lookup, the embedding of Python `dict.get`. -/
def lookupAssoc : List (String × Value) → String → Option Value
  | [], _ => none
  | (k', v') :: rest, k => if k' = k then some v' else lookupAssoc rest k

/-- Association-list update with Python `dict.__setitem__` semantics:
replace the value in place if the key is present, append otherwise. -/
def insertAssoc : List (String × Value) → String → Value → List (String × Value)
  | [], k, v => [(k, v)]
  | (k', v') :: rest, k, v =>
      if k' = k then (k, v) :: rest else (k', v') :: insertAssoc rest k v

/-- `MacOSConfigStore._defaults`: the compiled-in default settings. -/
def defaults : List (String × Value) :=
  [("day-start-minutes", Value.VInt 330), ("last-report-folder", Value.VStr "")]

/-- State of the plist file as seen at construction time: absent,
present but unreadable (load raises), or present with readable content. -/
inductive FileState where
  | missing
  | unreadable
  | content (m : List (String × Value))
deriving DecidableEq

/-- The merge loop of `_load_settings`: for each default key absent from
the loaded settings, fill it in from the defaults (`settings[key] = default_value`;
a fresh dict key is appended in insertion order). -/
def mergeDefaults (m : List (String × Value)) : List (String × Value) :=
  defaults.foldl
    (fun acc kd => if (lookupAssoc acc kd.1).isSome then acc else acc ++ [kd])
    m

/-- `MacOSConfigStore._load_settings`: load the plist if it exists, merging
defaults over missing keys; on a missing file or a load failure return a
copy of the defaults. -/
def load_settings : FileState → List (String × Value)
  | FileState.missing => defaults
  | FileState.unreadable => defaults
  | FileState.content m => mergeDefaults m

/-- The configuration store state: the in-memory `_settings` dict and the
content of the on-disk plist file (`none` = no file). -/
structure CStore where
  settings : List (String × Value)
  file : Option (List (String × Value))
deriving DecidableEq

/-- `MacOSConfigStore.__init__`: construct the store from the file state
by running `_load_settings`. -/
def newStore (fs : FileState) : CStore :=
  { settings := load_settings fs
    file := match fs with
            | FileState.content m => some m
            | _ => none }

/-- `MacOSConfigStore.get`: the stored value; if absent, the caller-supplied
default when given, else the compiled-in default (which may itself be absent,
giving Python `None`, i.e. `Option.none`). -/
def get (st : CStore) (key : String) (default : Option Value) : Option Value :=
  match lookupAssoc st.settings key with
  | some v => some v
  | none =>
      match default with
      | some d => some d
      | none => lookupAssoc defaults key

/-- Whether the two values have the same Python type (`isinstance` check
of `set` against the default's type). -/
def sameType : Value → Value → Bool
  | Value.VInt _, Value.VInt _ => true
  | Value.VStr _, Value.VStr _ => true
  | _, _ => false

/-- The condition under which `set` logs its type-mismatch warning:
`key in self._defaults and not isinstance(value, type(default_value))
and default_value != ''`.  Advisory only: the warning is logged and has
no effect on what `set` does. -/
def typeMismatch (key : String) (value : Value) : Bool :=
  match lookupAssoc defaults key with
  | some dv => !(sameType value dv) && (dv != Value.VStr "")
  | none => false

/-- `MacOSConfigStore._save_settings`: dump the in-memory settings to the
plist file.  The body is wrapped in `try/except` and any failure is only
logged, so save never propagates an error; `saveOk` models whether the
write succeeded.  Returns the resulting file content. -/
def save_settings (st : CStore) (saveOk : Bool) : Option (List (String × Value)) :=
  if saveOk then some st.settings else st.file

/-- `MacOSConfigStore.set`: store the value (after the advisory type check,
which only logs), save the whole map to the plist, emit `changed(key, value)`,
and return `True`.  Result: (new store state, returned boolean, emitted
`changed` signal payload). -/
def set (st : CStore) (key : String) (value : Value) (saveOk : Bool) :
    CStore × Bool × (String × Value) :=
  let settings' := insertAssoc st.settings key value
  let st' : CStore := { settings := settings', file := save_settings ⟨settings', st.file⟩ saveOk }
  (st', true, (key, value))

/-- `MacOSConfigStore.bind`, first half: push the current value of the key
into the target property (`obj.set_property(prop, self.get(key))`).  The
store itself is returned untouched: bind only reads it. -/
def bind (st : CStore) (key : String) (_target : Option Value) :
    CStore × Option Value :=
  (st, get st key none)

/-- The `on_changed` closure that `bind` connects to the `changed` signal:
update the target property only when the changed key is the bound key. -/
def on_changed (key : String) (target : Option Value)
    (changed_key : String) (new_value : Value) : Option Value :=
  if changed_key = key then some new_value else target

/-- A `set` followed by delivery of its `changed` signal to a target bound
to `key`: the combined effect on the store and on the bound property. -/
def set_notify (st : CStore) (key : String) (target : Option Value)
    (k : String) (v : Value) (saveOk : Bool) : CStore × Option Value :=
  let r := set st k v saveOk
  (r.1, on_changed key target r.2.2.1 r.2.2.2)

/-- Modelled from the spec: the time-of-day constructor `dt.time` (from
`hamster.lib.datetime`, a module outside the provided sources).  Per the
spec's derived-accessor description and the standard time-of-day contract,
it accepts hours 0..23 and minutes 0..59 and raises an out-of-range error
otherwise. -/
def mkTime (h m : Int) : Except String (Int × Int) :=
  if 0 ≤ h ∧ h ≤ 23 ∧ 0 ≤ m ∧ m ≤ 59 then Except.ok (h, m)
  else Except.error "time out of range"

/-- `MacOSConfigStore.day_start`: `divmod(get("day-start-minutes"), 60)`
fed to `dt.time`.  Python `divmod` is floor division and remainder, i.e.
`Int.fdiv`/`Int.fmod`.  A non-integer stored value would make `divmod`
raise a `TypeError`. -/
def day_start (st : CStore) : Except String (Int × Int) :=
  match get st "day-start-minutes" none with
  | some (Value.VInt n) => mkTime (Int.fdiv n 60) (Int.fmod n 60)
  | _ => Except.error "TypeError"

/-- A fact as the facade sees it: activity reference, start/end instants,
description.  `activity = none` is Python `None`; `some ""` is also falsy
in the `assert fact.activity` check. -/
structure Fact where
  activity : Option String
  start_time : Option Nat
  end_time : Option Nat
  description : String
deriving DecidableEq, Repr

/-- Python truthiness of `fact.activity`: `None` and `""` are falsy. -/
def activityTruthy (f : Fact) : Bool :=
  match f.activity with
  | none => false
  | some s => s != ""

/-- The record store state used by the facade: the next identifier to hand
out and the persisted facts. -/
structure FactDB where
  next_id : Nat
  facts : List (Nat × Fact)
deriving DecidableEq, Repr

/-- Modelled from the spec: the record store's `add_fact` (`hamster.storage.db`,
a module outside the provided sources).  It persists the fact and returns a
freshly assigned identifier. -/
def db_add_fact (db : FactDB) (f : Fact) : Nat × FactDB :=
  (db.next_id, ⟨db.next_id + 1, (db.next_id, f) :: db.facts⟩)

/-- `Storage.add_fact`: assert the activity is set (raising a precondition
error with message "missing activity" before anything is persisted or
mutated); default an unset start time to now, logging that this path is
deprecated; persist via the record store and return the new identifier.
The returned `Fact` is the final state of the caller's fact argument
(`add_fact` mutates it in place). -/
def add_fact (db : FactDB) (f : Fact) (now : Nat) :
    Except String Nat × Fact × FactDB :=
  if activityTruthy f then
    let f' := if f.start_time.isSome then f else { f with start_time := some now }
    let r := db_add_fact db f'
    (Except.ok r.1, f', r.2)
  else
    (Except.error "missing activity", f, db)

/-- `Storage.check_fact`: raise `FactError("Missing start time")` when the
start time is unset, otherwise delegate to the record store's check routine
(abstracted as the parameter `db_check`), re-raising its `FactError`
unchanged and returning `(True, "")` when it passes. -/
def check_fact (db_check : Fact → Option Nat → Except String Unit)
    (f : Fact) (default_day : Option Nat) : Except String (Bool × String) :=
  if f.start_time.isSome then
    match db_check f default_day with
    | Except.ok _ => Except.ok (true, "")
    | Except.error e => Except.error e
  else
    Except.error "Missing start time"

/-- An activity row as the record store returns it: joined category fields
are `None` for an uncategorized activity. -/
structure DBActivity where
  id : Nat
  name : String
  category_id : Option Nat
  category : Option String
deriving DecidableEq, Repr

/-- Modelled from the spec: the record store's `get_category_activities`
(`hamster.storage.db`, outside the provided sources).  The sentinel
category id `-1` selects the activities whose category is unset; any other
id selects the activities of that category. -/
def db_get_category_activities (acts : List DBActivity) (cid : Int) :
    List DBActivity :=
  if cid = -1 then acts.filter (fun a => a.category_id.isNone)
  else acts.filter (fun a => a.category_id = some cid.toNat)

/-- The field-labeled record the facade returns for an activity:
`('id', 'name', 'category_id', 'category')` with `category or ''`. -/
structure ActivityRecord where
  id : Nat
  name : String
  category_id : Option Nat
  category : String
deriving DecidableEq, Repr

/-- Python `category_id or -1`: `None` and `0` are falsy and become the
sentinel `-1`. -/
def pythonOrNeg1 : Option Int → Int
  | none => -1
  | some v => if v = 0 then -1 else v

/-- `Storage.get_category_activities`: apply the `or -1` sentinel, query
the record store, and shape each row into an ordered field-labeled record. -/
def get_category_activities (acts : List DBActivity) (category_id : Option Int) :
    List ActivityRecord :=
  (db_get_category_activities acts (pythonOrNeg1 category_id)).map
    (fun a => ⟨a.id, a.name, a.category_id, a.category.getD ""⟩)

/-! ## Helper lemmas -/

theorem lookupAssoc_insertAssoc_self (m : List (String × Value)) (k : String)
    (v : Value) : lookupAssoc (insertAssoc m k v) k = some v := by
  induction m with
  | nil => simp [insertAssoc, lookupAssoc]
  | cons hd tl ih =>
      obtain ⟨k', v'⟩ := hd
      by_cases h : k' = k
      · simp [insertAssoc, h, lookupAssoc]
      · simp [insertAssoc, h, lookupAssoc, ih]

theorem get_set_same (st : CStore) (k : String) (v : Value) (saveOk : Bool) :
    get (set st k v saveOk).1 k none = some v := by
  simp [get, set, lookupAssoc_insertAssoc_self]

theorem lookupAssoc_append_some {m : List (String × Value)} {k : String}
    {v : Value} (h : lookupAssoc m k = some v) (l : List (String × Value)) :
    lookupAssoc (m ++ l) k = some v := by
  induction m with
  | nil => simp [lookupAssoc] at h
  | cons hd tl ih =>
      obtain ⟨k', v'⟩ := hd
      by_cases hk : k' = k
      · simpa [lookupAssoc, hk] using h
      · simp [lookupAssoc, hk] at h ⊢
        exact ih h

theorem lookupAssoc_append_none {m : List (String × Value)} {k : String}
    (h : lookupAssoc m k = none) (l : List (String × Value)) :
    lookupAssoc (m ++ l) k = lookupAssoc l k := by
  induction m with
  | nil => simp
  | cons hd tl ih =>
      obtain ⟨k', v'⟩ := hd
      by_cases hk : k' = k
      · simp [lookupAssoc, hk] at h
      · simp [lookupAssoc, hk] at h ⊢
        exact ih h

theorem mergeStep_preserves {acc : List (String × Value)} {k : String}
    {v : Value} (h : lookupAssoc acc k = some v) (kd : String × Value) :
    lookupAssoc
      (if (lookupAssoc acc kd.1).isSome then acc else acc ++ [kd]) k = some v := by
  split
  · exact h
  · exact lookupAssoc_append_some h _

theorem mergeDefaults_preserves {m : List (String × Value)} {k : String}
    {v : Value} (h : lookupAssoc m k = some v) :
    lookupAssoc (mergeDefaults m) k = some v := by
  have h1 := mergeStep_preserves h ("day-start-minutes", Value.VInt 330)
  have h2 := mergeStep_preserves h1 ("last-report-folder", Value.VStr "")
  simpa [mergeDefaults, defaults, List.foldl] using h2

theorem mergeDefaults_fills {m : List (String × Value)} {k : String}
    {dv : Value} (hd : lookupAssoc defaults k = some dv)
    (hm : lookupAssoc m k = none) :
    lookupAssoc (mergeDefaults m) k = some dv := by
  simp only [defaults, lookupAssoc] at hd
  by_cases h0 : "day-start-minutes" = k
  · subst h0
    simp only [if_pos rfl] at hd
    have hstep1 : lookupAssoc
        (if (lookupAssoc m "day-start-minutes").isSome then m
         else m ++ [("day-start-minutes", Value.VInt 330)]) "day-start-minutes" =
        some (Value.VInt 330) := by
      rw [if_neg (by simp [hm])]
      rw [lookupAssoc_append_none hm]
      simp [lookupAssoc]
    have hstep2 := mergeStep_preserves hstep1 ("last-report-folder", Value.VStr "")
    simp only [mergeDefaults, defaults, List.foldl]
    rw [← hd]
    exact hstep2
  · rw [if_neg h0] at hd
    by_cases h1 : "last-report-folder" = k
    · subst h1
      simp only [if_pos rfl] at hd
      have hne : ("day-start-minutes" : String) ≠ "last-report-folder" := by decide
      have hstep1 : lookupAssoc
          (if (lookupAssoc m "day-start-minutes").isSome then m
           else m ++ [("day-start-minutes", Value.VInt 330)]) "last-report-folder" =
          none := by
        split
        · exact hm
        · rw [lookupAssoc_append_none hm]
          simp [lookupAssoc, hne]
      simp only [mergeDefaults, defaults, List.foldl]
      rw [← hd]
      rw [if_neg (by simp [hstep1])]
      rw [lookupAssoc_append_none hstep1]
      simp [lookupAssoc]
    · rw [if_neg h1] at hd
      exact absurd hd (by simp)

/-! ## Claim theorems: configuration store -/

/-- C3: for every key and value, `set` never rejects the value (the type
check against the compiled-in default is advisory, logged only): it returns
`True`, the value is stored in the settings map, on a successful write the
entire map is persisted to the file, a `changed(key, value)` notification
is published, and afterwards `get key` returns exactly the stored value.
The statement holds for all values, in particular type-mismatched ones:
`set` does not consult `typeMismatch`. -/
theorem set_contract (st : CStore) (k : String) (v : Value) (saveOk : Bool) :
    (set st k v saveOk).2.1 = true ∧
    (set st k v saveOk).1.settings = insertAssoc st.settings k v ∧
    (saveOk = true →
      (set st k v saveOk).1.file = some ((set st k v saveOk).1.settings)) ∧
    (set st k v saveOk).2.2 = (k, v) ∧
    get (set st k v saveOk).1 k none = some v := by
  refine ⟨rfl, rfl, ?_, rfl, get_set_same st k v saveOk⟩
  intro h
  subst h
  rfl

/-- C3 witness: a type-mismatched value (a string stored under the integer
key "day-start-minutes") is stored, persisted and readable back. -/
theorem set_contract_witness :
    typeMismatch "day-start-minutes" (Value.VStr "oops") = true ∧
    (set (newStore FileState.missing) "day-start-minutes" (Value.VStr "oops")
        true).1.file =
      some ((set (newStore FileState.missing) "day-start-minutes"
        (Value.VStr "oops") true).1.settings) ∧
    get (set (newStore FileState.missing) "day-start-minutes"
        (Value.VStr "oops") true).1 "day-start-minutes" none =
      some (Value.VStr "oops") :=
  ⟨by decide,
   (set_contract (newStore FileState.missing) "day-start-minutes"
      (Value.VStr "oops") true).2.2.1 rfl,
   (set_contract (newStore FileState.missing) "day-start-minutes"
      (Value.VStr "oops") true).2.2.2.2⟩

/-- C4: construction merges defaults over the loaded file (file values win,
absent default keys are filled in); a missing or unreadable file yields the
full default set; a fresh store with no file answers 330 for
"day-start-minutes" and "" for "last-report-folder". -/
theorem load_settings_contract :
    (∀ m k v, lookupAssoc m k = some v →
        lookupAssoc (load_settings (FileState.content m)) k = some v) ∧
    (∀ m k dv, lookupAssoc defaults k = some dv → lookupAssoc m k = none →
        lookupAssoc (load_settings (FileState.content m)) k = some dv) ∧
    load_settings FileState.missing = defaults ∧
    load_settings FileState.unreadable = defaults ∧
    get (newStore FileState.missing) "day-start-minutes" none =
      some (Value.VInt 330) ∧
    get (newStore FileState.missing) "last-report-folder" none =
      some (Value.VStr "") := by
  refine ⟨?_, ?_, rfl, rfl, by decide, by decide⟩
  · intro m k v h
    exact mergeDefaults_preserves h
  · intro m k dv hd hm
    exact mergeDefaults_fills hd hm

/-- C4 witness: a file holding only an unknown key gets
"day-start-minutes" filled in from the defaults, and keeps its own value. -/
theorem load_settings_contract_witness :
    lookupAssoc (load_settings (FileState.content [("x", Value.VInt 1)]))
      "day-start-minutes" = some (Value.VInt 330) ∧
    lookupAssoc (load_settings (FileState.content [("x", Value.VInt 1)]))
      "x" = some (Value.VInt 1) :=
  ⟨load_settings_contract.2.1 [("x", Value.VInt 1)] "day-start-minutes"
      (Value.VInt 330) (by decide) (by decide),
   load_settings_contract.1 [("x", Value.VInt 1)] "x" (Value.VInt 1)
      (by decide)⟩

/-- C5: `bind` immediately pushes the current value of the key into the
target and leaves the store untouched; after a subsequent `set k v`, the
delivered notification updates the bound target to `v` exactly when
`k` is the bound key, and leaves it unchanged otherwise. -/
theorem bind_contract (st : CStore) (key : String) (t : Option Value)
    (k : String) (v : Value) (saveOk : Bool) :
    (bind st key t).2 = get st key none ∧
    (bind st key t).1 = st ∧
    (k = key → (set_notify st key t k v saveOk).2 = some v) ∧
    (k ≠ key → (set_notify st key t k v saveOk).2 = t) := by
  refine ⟨rfl, rfl, ?_, ?_⟩
  · intro h
    simp [set_notify, set, on_changed, h]
  · intro h
    simp [set_notify, set, on_changed, h]

/-- C5 witness: a set of the bound key updates the bound property; a set of
a different key leaves it unchanged. -/
theorem bind_contract_witness :
    (set_notify (newStore FileState.missing) "day-start-minutes"
        (some (Value.VInt 330)) "day-start-minutes" (Value.VInt 270)
        true).2 = some (Value.VInt 270) ∧
    (set_notify (newStore FileState.missing) "day-start-minutes"
        (some (Value.VInt 330)) "last-report-folder" (Value.VStr "x")
        true).2 = some (Value.VInt 330) :=
  ⟨(bind_contract (newStore FileState.missing) "day-start-minutes"
      (some (Value.VInt 330)) "day-start-minutes" (Value.VInt 270) true).2.2.1
      rfl,
   (bind_contract (newStore FileState.missing) "day-start-minutes"
      (some (Value.VInt 330)) "last-report-folder" (Value.VStr "x") true).2.2.2
      (by decide)⟩

/-- C6: when persisting the settings file fails, `set` does not raise (it
still returns `True`), the in-memory settings hold exactly the same state
as after a successful persist (the update applied over the last-known-good
map), and the on-disk content is left as it was. -/
theorem set_persist_failure (st : CStore) (k : String) (v : Value) :
    (set st k v false).2.1 = true ∧
    (set st k v false).1.settings = insertAssoc st.settings k v ∧
    (set st k v false).1.settings = (set st k v true).1.settings ∧
    (set st k v false).1.file = st.file :=
  ⟨rfl, rfl, rfl, rfl⟩

/-- C7: whenever the stored "day-start-minutes" value is an integer in
[0, 1440), `day_start` is the time-of-day given by
`divmod(minutes, 60)`; in particular after `set "day-start-minutes" 270`,
`get` returns 270 and `day_start` is 04:30. -/
theorem day_start_contract (st : CStore) (n : Int) :
    (get st "day-start-minutes" none = some (Value.VInt n) → 0 ≤ n →
        n < 1440 →
        day_start st = Except.ok (Int.fdiv n 60, Int.fmod n 60)) ∧
    get (set st "day-start-minutes" (Value.VInt 270) true).1
      "day-start-minutes" none = some (Value.VInt 270) ∧
    day_start (set st "day-start-minutes" (Value.VInt 270) true).1 =
      Except.ok (4, 30) := by
  refine ⟨?_, get_set_same st "day-start-minutes" (Value.VInt 270) true, ?_⟩
  · intro hget h0 h1
    simp only [day_start, hget]
    rw [mkTime, if_pos]
    rw [Int.fdiv_eq_ediv _ (by norm_num), Int.fmod_eq_emod _ (by norm_num)]
    refine ⟨Int.ediv_nonneg h0 (by norm_num), ?_, ?_, ?_⟩
    · have h24 : n / 60 < 24 := by
        rw [Int.ediv_lt_iff_lt_mul (by norm_num)]
        omega
      omega
    · exact Int.emod_nonneg n (by norm_num)
    · have h60 : n % 60 < 60 := Int.emod_lt_of_pos n (by norm_num)
      omega
  · have hg := get_set_same st "day-start-minutes" (Value.VInt 270) true
    simp only [day_start, hg]
    rfl

/-- C7 witness: a store holding 270 yields `day_start` = 04:30 through the
general statement. -/
theorem day_start_contract_witness :
    day_start ⟨[("day-start-minutes", Value.VInt 270)], none⟩ =
      Except.ok (Int.fdiv 270 60, Int.fmod 270 60) :=
  (day_start_contract ⟨[("day-start-minutes", Value.VInt 270)], none⟩ 270).1
    (by decide) (by decide) (by decide)

/-- C10: for a stored "day-start-minutes" integer of 1440 or more, or a
negative one, `day_start` raises the time constructor's out-of-range error
(the floor divmod yields an hour outside 0..23); and `set` does not prevent
such a value from being stored. -/
theorem day_start_out_of_range (st : CStore) (n : Int) :
    (get st "day-start-minutes" none = some (Value.VInt n) →
        1440 ≤ n ∨ n < 0 →
        day_start st = Except.error "time out of range") ∧
    (∀ m : Int, get (set st "day-start-minutes" (Value.VInt m) true).1
        "day-start-minutes" none = some (Value.VInt m)) := by
  refine ⟨?_, fun m => get_set_same st "day-start-minutes" (Value.VInt m) true⟩
  intro hget hn
  simp only [day_start, hget]
  rw [mkTime, if_neg]
  rw [Int.fdiv_eq_ediv _ (by norm_num)]
  rcases hn with hn | hn
  · have h24 : 24 ≤ n / 60 := by
      rw [Int.le_ediv_iff_mul_le (by norm_num)]
      omega
    intro hcontra
    omega
  · have hneg : n / 60 < 0 := Int.ediv_neg' hn (by norm_num)
    intro hcontra
    omega

/-- C10 witness: with 1440 stored, `day_start` raises, and `set` happily
stores 1440. -/
theorem day_start_out_of_range_witness :
    day_start ⟨[("day-start-minutes", Value.VInt 1440)], none⟩ =
      Except.error "time out of range" ∧
    get (set (newStore FileState.missing) "day-start-minutes"
        (Value.VInt 1440) true).1 "day-start-minutes" none =
      some (Value.VInt 1440) :=
  ⟨(day_start_out_of_range ⟨[("day-start-minutes", Value.VInt 1440)], none⟩
      1440).1 (by decide) (Or.inl (by decide)),
   (day_start_out_of_range (newStore FileState.missing) 0).2 1440⟩

/-! ## Claim theorems: storage facade -/

/-- C1: `add_fact` fails fast with the precondition error "missing activity"
when the activity is unset, persisting nothing (the record store is returned
unchanged); with the activity set and the start time unset, the fact is
defaulted to now (deprecated path) before persisting and the call returns
the identifier produced by the record store, the persisted fact's start
time being now; with both set, the fact is persisted as given. -/
theorem add_fact_contract (db : FactDB) (f : Fact) (now : Nat) :
    (activityTruthy f = false →
        add_fact db f now = (Except.error "missing activity", f, db)) ∧
    (activityTruthy f = true → f.start_time = none →
        add_fact db f now =
          (Except.ok db.next_id, { f with start_time := some now },
           ⟨db.next_id + 1,
            (db.next_id, { f with start_time := some now }) :: db.facts⟩)) ∧
    (activityTruthy f = true → f.start_time.isSome = true →
        add_fact db f now =
          (Except.ok db.next_id, f,
           ⟨db.next_id + 1, (db.next_id, f) :: db.facts⟩)) := by
  refine ⟨?_, ?_, ?_⟩
  · intro h
    simp [add_fact, h]
  · intro h hst
    simp [add_fact, h, hst, db_add_fact]
  · intro h hst
    simp [add_fact, h, hst, db_add_fact]

/-- C1 witness: a fact with an activity and no start time is persisted with
start time now and gets the store's next identifier. -/
theorem add_fact_contract_witness :
    add_fact ⟨1, []⟩ ⟨some "work", none, none, ""⟩ 5 =
      (Except.ok 1, ⟨some "work", some 5, none, ""⟩,
       ⟨2, [(1, ⟨some "work", some 5, none, ""⟩)]⟩) :=
  (add_fact_contract ⟨1, []⟩ ⟨some "work", none, none, ""⟩ 5).2.1 rfl rfl

/-- C9: `add_fact` mutates its fact argument in place: on the successful
deprecated path (activity set, start time unset) the caller's fact comes
back with its start time set to now; a fact whose start time was already
set is left unchanged, whatever branch the call takes. -/
theorem add_fact_mutation (db : FactDB) (f : Fact) (now : Nat) :
    (activityTruthy f = true → f.start_time = none →
        (add_fact db f now).2.1 = { f with start_time := some now }) ∧
    (f.start_time.isSome = true → (add_fact db f now).2.1 = f) := by
  constructor
  · intro h hst
    simp [add_fact, h, hst, db_add_fact]
  · intro hst
    cases h : activityTruthy f
    · simp [add_fact, h]
    · simp [add_fact, h, hst, db_add_fact]

/-- C9 witness: the unset-start fact argument comes back with start time
now; a set-start fact comes back untouched. -/
theorem add_fact_mutation_witness :
    (add_fact ⟨1, []⟩ ⟨some "work", none, none, ""⟩ 5).2.1 =
      ⟨some "work", some 5, none, ""⟩ ∧
    (add_fact ⟨1, []⟩ ⟨some "work", some 3, none, ""⟩ 5).2.1 =
      ⟨some "work", some 3, none, ""⟩ :=
  ⟨(add_fact_mutation ⟨1, []⟩ ⟨some "work", none, none, ""⟩ 5).1 rfl rfl,
   (add_fact_mutation ⟨1, []⟩ ⟨some "work", some 3, none, ""⟩ 5).2 rfl⟩

/-- C2 counterexample: for a fact without a start time, `check_fact` raises
with reason "Missing start time" (capital M), which is not the claimed
reason "missing start time". -/
theorem check_fact_counterexample :
    check_fact (fun _ _ => Except.ok ()) ⟨some "work", none, none, ""⟩ none =
      Except.error "Missing start time" ∧
    "Missing start time" ≠ "missing start time" :=
  ⟨rfl, by decide⟩

/-- C2 (amended): `check_fact` raises a validation error with reason
"Missing start time" whenever the start time is absent; otherwise it
delegates to the record store's check routine, surfacing any validation
error unchanged (same reason) and returning success (`(True, "")`) when
the store's check passes. -/
theorem check_fact_contract
    (db_check : Fact → Option Nat → Except String Unit) (f : Fact)
    (d : Option Nat) :
    (f.start_time = none →
        check_fact db_check f d = Except.error "Missing start time") ∧
    (∀ e, f.start_time.isSome = true → db_check f d = Except.error e →
        check_fact db_check f d = Except.error e) ∧
    (f.start_time.isSome = true → db_check f d = Except.ok () →
        check_fact db_check f d = Except.ok (true, "")) := by
  refine ⟨?_, ?_, ?_⟩
  · intro h
    simp [check_fact, h]
  · intro e h he
    simp [check_fact, h, he]
  · intro h he
    simp [check_fact, h, he]

/-- C2 witness: an unset start time raises "Missing start time"; a store
error "overlap" is surfaced unchanged; a passing store check succeeds. -/
theorem check_fact_contract_witness :
    check_fact (fun _ _ => Except.ok ()) ⟨some "work", none, none, ""⟩ none =
      Except.error "Missing start time" ∧
    check_fact (fun _ _ => Except.error "overlap")
      ⟨some "work", some 0, none, ""⟩ none = Except.error "overlap" ∧
    check_fact (fun _ _ => Except.ok ()) ⟨some "work", some 0, none, ""⟩ none =
      Except.ok (true, "") :=
  ⟨(check_fact_contract (fun _ _ => Except.ok ())
      ⟨some "work", none, none, ""⟩ none).1 rfl,
   (check_fact_contract (fun _ _ => Except.error "overlap")
      ⟨some "work", some 0, none, ""⟩ none).2.1 "overlap" rfl rfl,
   (check_fact_contract (fun _ _ => Except.ok ())
      ⟨some "work", some 0, none, ""⟩ none).2.2 rfl rfl⟩

/-- C8: `get_category_activities` with no category argument returns exactly
the activities whose category is unset, in order, shaped as records with
fields id, name, category_id, category. -/
theorem get_category_activities_uncategorized (acts : List DBActivity) :
    get_category_activities acts none =
      (acts.filter (fun a => a.category_id.isNone)).map
        (fun a => ⟨a.id, a.name, a.category_id, a.category.getD ""⟩) := by
  simp [get_category_activities, db_get_category_activities, pythonOrNeg1]

end Hamster
